import Mathlib

/-!
Verification development for the AgriEcho offline-sync subsystem.

The definitions below are a shallow embedding of the client-side offline
code: the `OfflineManager` sync queue (enqueue, drain, scheduled retries,
connectivity handlers, stats), the `OfflineWeatherManager` TTL cache, and
the service worker's request routing (static cache-first handler, API
network-first handler with synthesized offline fallbacks, POST queueing).

Machine integers do not arise: all counters and timestamps are small
non-negative values, modelled as `Nat`.  JavaScript's `Date.now() - cachedAt`
is only compared with `>` against a positive constant, and the stored
`cachedAt` never exceeds `now` in the scenarios of interest; `Nat`
truncated subtraction agrees with signed subtraction on that comparison
(a negative age and a zero age both fail `age > maxAge`).

The DOM / UI updates (`updateConnectionUI`, `updateSyncStatus`) and the
companion localStorage stores (`pendingSOSAlerts`, `offlineVoiceQueries`)
are external observers that no property below depends on; they are not
modelled.  Network delivery is modelled by an explicit outcome supplied by
the environment, and every issued request is recorded in a `sends` log so
that delivery counts can be stated.
-/

/-- Status strings actually assigned by the source: a queue entry is created
with status "pending" and is only ever rewritten to "completed" or
"failed". The status field is kept as a `String`, as in the source; the
closure of reachable states over these three strings is proved, not
assumed. -/
def statusOK (st : String) : Bool :=
  st = "pending" || st = "completed" || st = "failed"

/-- A sync-queue entry, mirroring the object literal built by
`OfflineManager.addToSyncQueue`. -/
structure SyncItem where
  id : Nat
  type : String
  data : String
  endpoint : String
  method : String
  timestamp : Nat
  retries : Nat
  status : String
  completedAt : Option Nat := none
  deriving Repr, DecidableEq

/-- Retry bound `this.maxRetries` from the `OfflineManager` constructor. -/
def maxRetries : Nat := 3

/-- Base retry delay `this.retryDelay` (milliseconds) from the
`OfflineManager` constructor. -/
def retryDelay : Nat := 5000

/-- Update every queue entry whose `id` matches, leaving the rest alone.
This is the pure rendering of mutating a snapshot-held object reference:
the drain loop and the retry timers hold references to entry objects and
assign their fields in place. -/
def updateById (q : List SyncItem) (a : Nat) (f : SyncItem → SyncItem) : List SyncItem :=
  q.map (fun i => if i.id = a then f i else i)

/-- Look up a queue entry by id (the entry a held reference points at). -/
def getById (q : List SyncItem) (a : Nat) : Option SyncItem :=
  q.find? (fun i => i.id = a)

/-- The ids of the entries selected by the drain's snapshot filter
`this.syncQueue.filter(item => item.status === 'pending')`. -/
def pendingIds (q : List SyncItem) : List Nat :=
  (q.filter (fun i => i.status = "pending")).map (fun i => i.id)

/-- The filter applied by `saveSyncQueue`: keep pending and failed entries,
and completed entries newer than the 24-hour cutoff
(`cutoffTime = Date.now() - 24*60*60*1000`). -/
def saveSyncQueueFilter (now : Nat) (q : List SyncItem) : List SyncItem :=
  q.filter (fun i =>
    i.status = "pending" || i.status = "failed" ||
      (match i.completedAt with
       | some t => decide (now - 24 * 60 * 60 * 1000 < t)
       | none => false))

/-- The success path of `syncItem`: the response was ok and `result.success`
was true, so the entry is marked completed with `completedAt = Date.now()`. -/
def syncItemSuccess (now : Nat) (i : SyncItem) : SyncItem :=
  { i with status := "completed", completedAt := some now }

/-- The catch branch of the drain loop: `item.retries++`, then
`item.status = 'failed'` when `item.retries >= this.maxRetries`. -/
def drainFail (i : SyncItem) : SyncItem :=
  if i.retries + 1 ≥ maxRetries then
    { i with retries := i.retries + 1, status := "failed" }
  else
    { i with retries := i.retries + 1 }

/-- Accumulated effect of the drain loop on shared state: queue contents,
the fetch log, and the retry timers scheduled so far. -/
structure DrainResult where
  queue : List SyncItem
  sends : List Nat
  timers : List (Nat × Nat)
  deriving Repr, DecidableEq

/-- One iteration of the `for (const item of pendingItems)` loop in
`processSyncQueue`, for the snapshot entry with id `a`: `syncItem` issues
the fetch unconditionally (logged in `sends` — the entry's current status
is never re-read); on success the entry is marked completed; on any
failure the catch branch increments `retries`, marks the entry failed at
`maxRetries`, and otherwise schedules a retry timer after
`retryDelay * retries`. -/
def drainStep1 (outcome : Nat → Bool) (now : Nat) (a : Nat) (r : DrainResult) : DrainResult :=
  let r1 : DrainResult := { r with sends := r.sends ++ [a] }
  if outcome a then
    { r1 with queue := updateById r1.queue a (syncItemSuccess now) }
  else
    match getById r1.queue a with
    | none => r1
    | some i =>
      let i2 := drainFail i
      let r3 : DrainResult := { r1 with queue := updateById r1.queue a (fun _ => i2) }
      if i2.retries < maxRetries then
        { r3 with timers := r3.timers ++ [(retryDelay * i2.retries, a)] }
      else r3

/-! ## Offline weather cache (`OfflineWeatherManager`) -/

/-- TTL bound `this.maxAge = 6 * 60 * 60 * 1000` (6 hours, ms). -/
def maxAge : Nat := 6 * 60 * 60 * 1000

/-- A stored weather record: the cached payload together with the
`cachedAt` timestamp that `cacheWeatherData` spreads into it. The store is
the single localStorage slot under `cachedWeatherData`. -/
abbrev WeatherStore := Option (String × Nat)

/-- Embedding of `OfflineWeatherManager.cacheWeatherData`: overwrite the
slot with the payload plus `cachedAt = Date.now()`. -/
def cacheWeatherData (data : String) (now : Nat) : WeatherStore :=
  some (data, now)

/-- Embedding of `OfflineWeatherManager.getCachedWeatherData`: return null
when the slot is empty; compute `age = Date.now() - cachedAt`; when
`age > maxAge` remove the record and return null; otherwise return the
stored record.  Returns the pair (result, store afterwards). -/
def getCachedWeatherData (store : WeatherStore) (now : Nat) :
    Option (String × Nat) × WeatherStore :=
  match store with
  | none => (none, none)
  | some (d, t) =>
    if now - t > maxAge then (none, none)
    else (some (d, t), some (d, t))

/-! ## Service worker request handling -/

/-- The `data: {sos: [], queries: [], weather: []}` object of the offline
sync fallback. -/
structure SyncData where
  sos : List String
  queries : List String
  weather : List String
  deriving Repr, DecidableEq

/-- A JSON response body, as a record of the fields the service worker ever
writes. Absent fields are `none`. -/
structure RespBody where
  success : Option Bool := none
  data : Option SyncData := none
  response : Option String := none
  error : Option String := none
  message : Option String := none
  queued : Option Bool := none
  offline : Option Bool := none
  text : Option String := none
  deriving Repr, DecidableEq

/-- A `Response`: status code plus body. `new Response(body)` defaults to
status 200. -/
structure Resp where
  status : Nat := 200
  body : RespBody := {}
  deriving Repr, DecidableEq

/-- `Response.ok`: status in the 200..299 range. -/
def respOk (r : Resp) : Bool :=
  200 ≤ r.status && r.status < 300

/-- Outcome of a `fetch` call: a response (of any status), or a thrown
transport error. -/
inductive NetOutcome where
  | resp (r : Resp)
  | throw
  deriving Repr, DecidableEq

/-- Prefix test on the underlying character list (`String.prototype.startsWith`). -/
def strStartsWith (s pre : String) : Bool :=
  s.data.take pre.data.length = pre.data

/-- Suffix test on the underlying character list (`String.prototype.endsWith`). -/
def strEndsWith (s suf : String) : Bool :=
  s.data.drop (s.data.length - suf.data.length) = suf.data && suf.data.length ≤ s.data.length

/-- Embedding of `isStaticFile`: path-prefix or extension match. -/
def isStaticFile (p : String) : Bool :=
  strStartsWith p "/css/" || strStartsWith p "/js/" || strStartsWith p "/icons/" ||
    strEndsWith p ".png" || strEndsWith p ".jpg" || strEndsWith p ".jpeg" ||
    strEndsWith p ".svg" || strEndsWith p ".ico"

/-- Embedding of `isAPIRequest`. -/
def isAPIRequest (p : String) : Bool :=
  strStartsWith p "/api/"

/-- The routing performed by the `fetch` event listener. `acceptsHtml`
renders `isPageRequest` (the accept header includes text/html). Requests
that are neither GET nor POST get no `respondWith` and pass through. -/
inductive Route where
  | staticFile
  | api
  | page
  | other
  | post
  | passthrough
  deriving Repr, DecidableEq

/-- Embedding of the dispatch in the `fetch` event listener. -/
def classifyRequest (method : String) (p : String) (acceptsHtml : Bool) : Route :=
  if method = "GET" then
    if isStaticFile p then Route.staticFile
    else if isAPIRequest p then Route.api
    else if acceptsHtml then Route.page
    else Route.other
  else if method = "POST" then Route.post
  else Route.passthrough

/-- Result of a handler: the response returned to the page, the cache entry
for this request key afterwards, and whether a network fetch was issued. -/
structure FetchResult where
  response : Resp
  cacheAfter : Option Resp
  networkAttempted : Bool
  deriving Repr, DecidableEq

/-- Embedding of `handleStaticFile` (cache-first): a cache hit is returned
at once; on a miss the network is fetched, an ok response is put into the
static cache and returned, a non-ok response is returned uncached, and a
thrown fetch yields the 503 "File not available offline" response. -/
def handleStaticFile (cache : Option Resp) (net : NetOutcome) : FetchResult :=
  match cache with
  | some c => ⟨c, some c, false⟩
  | none =>
    match net with
    | NetOutcome.resp r => ⟨r, if respOk r then some r else none, true⟩
    | NetOutcome.throw =>
      ⟨{ status := 503, body := { text := some "File not available offline" } }, none, true⟩

/-- Embedding of `handleOfflineAPIResponse`: the synthesized payload per
endpoint when both network and cache miss. -/
def handleOfflineAPIResponse (p : String) : Resp :=
  if p = "/api/sync" then
    { status := 200,
      body := { success := some true, data := some ⟨[], [], []⟩, offline := some true } }
  else if p = "/api/voice-query" then
    { status := 200,
      body := { success := some true,
                response := some "I\x27m currently offline. Your question has been saved and I\x27ll respond when connectivity is restored.",
                offline := some true } }
  else
    { status := 503,
      body := { success := some false, error := some "Service unavailable offline",
                offline := some true } }

/-- Embedding of `handleAPIRequest` (network-first): an ok network response
is stored into the dynamic cache and returned; a non-ok response is
returned uncached; on a thrown fetch the cached response for the same key
is returned if present, else the synthesized offline payload. -/
def handleAPIRequest (p : String) (cache : Option Resp) (net : NetOutcome) : FetchResult :=
  match net with
  | NetOutcome.resp r => ⟨r, if respOk r then some r else cache, true⟩
  | NetOutcome.throw =>
    match cache with
    | some c => ⟨c, some c, true⟩
    | none => ⟨handleOfflineAPIResponse p, none, true⟩

/-- A failed POST request as recorded by `storeFailedRequest`: the request
data plus the timestamp and id added at store time. -/
structure QueuedRequest where
  url : String
  method : String
  reqBody : String
  timestamp : Nat
  id : Nat
  deriving Repr, DecidableEq

/-- Embedding of `storeFailedRequest`: append the request record to the
`failedRequests` store. -/
def storeFailedRequest (store : List QueuedRequest) (url method reqBody : String)
    (now newId : Nat) : List QueuedRequest :=
  store ++ [⟨url, method, reqBody, now, newId⟩]

/-- Embedding of `handlePostRequest`: a network response of any status is
returned as-is; a thrown fetch stores the request for background sync and
returns the 202 "Request queued for sync when online" body. No cache is
consulted in either branch. Returns (response, failed-request store
afterwards). -/
def handlePostRequest (net : NetOutcome) (store : List QueuedRequest)
    (url method reqBody : String) (now newId : Nat) : Resp × List QueuedRequest :=
  match net with
  | NetOutcome.resp r => (r, store)
  | NetOutcome.throw =>
    ({ status := 202,
       body := { success := some false,
                 message := some "Request queued for sync when online",
                 queued := some true } },
     storeFailedRequest store url method reqBody now newId)

/-! ## The OfflineManager as a cooperative small-step machine

JavaScript runs the page single-threaded; `processSyncQueue` and the
retry-timer callbacks suspend only at `await fetch(...)`.  The machine
below makes each atomic segment between suspension points one step.  A
drain invocation synchronously filters the pending snapshot; each later
step sends the next snapshot entry (the fetch is issued before any state
is re-examined) and applies the outcome the network returns.  Scheduled
retry timers are separate tasks holding an entry reference.  The scheduler
(which task runs next, and each fetch's outcome) is the environment's
choice, supplied as an explicit action list. -/

/-- Whole-machine state of the `OfflineManager` plus the observation log.
`drains` holds each in-flight drain's remaining snapshot ids; `timers`
holds scheduled retry tasks as (delay ms, entry id); `sends` logs the id
of every entry for which a fetch was issued, in order; `drainCalls` counts
invocations of `processSyncQueue`. -/
structure MState where
  isOnline : Bool
  syncQueue : List SyncItem
  drains : List (List Nat)
  timers : List (Nat × Nat)
  sends : List Nat
  drainCalls : Nat
  now : Nat
  deriving Repr, DecidableEq

/-- The synchronous prefix of `processSyncQueue`: return at once when
offline or the queue is empty; otherwise snapshot the pending entries.  An
empty snapshot runs the loop zero times and saves immediately; a non-empty
snapshot becomes an in-flight drain task suspended at its first fetch. -/
def processSyncQueueStart (s : MState) : MState :=
  let s1 := { s with drainCalls := s.drainCalls + 1 }
  if !s1.isOnline || s1.syncQueue.isEmpty then s1
  else
    let snap := pendingIds s1.syncQueue
    if snap.isEmpty then
      { s1 with syncQueue := saveSyncQueueFilter s1.now s1.syncQueue }
    else
      { s1 with drains := s1.drains ++ [snap] }

/-- Embedding of `handleOnline`: set the flag and invoke
`processSyncQueue` unconditionally (there is no check of the previous
state). -/
def handleOnline (s : MState) : MState :=
  processSyncQueueStart { s with isOnline := true }

/-- Embedding of `handleOffline`: clear the flag; no other core effect. -/
def handleOffline (s : MState) : MState :=
  { s with isOnline := false }

/-- Embedding of `addToSyncQueue`: build the entry with `retries = 0`,
`status = 'pending'`, push it, run `saveSyncQueue`, and when online invoke
`processSyncQueue`. -/
def addToSyncQueue (s : MState) (type data endpoint method : String) (newId : Nat) : MState :=
  let item : SyncItem :=
    { id := newId, type := type, data := data, endpoint := endpoint, method := method,
      timestamp := s.now, retries := 0, status := "pending" }
  let s1 := { s with syncQueue := saveSyncQueueFilter s.now (s.syncQueue ++ [item]) }
  if s1.isOnline then processSyncQueueStart s1 else s1

/-- One resumption of drain task `k`: issue the fetch for the next
snapshot id (unconditionally — `syncItem` never re-reads the entry's
status) and apply the outcome.  Success marks the entry completed; any
failure takes the catch branch: increment `retries`, mark failed at
`maxRetries`, otherwise schedule a retry timer after
`retryDelay * retries`.  After the last snapshot entry the loop exits and
`saveSyncQueue` runs in the same resumption. -/
def stepDrain (s : MState) (k : Nat) (outcome : Bool) : MState :=
  match s.drains.get? k with
  | none => s
  | some [] =>
    { s with drains := s.drains.eraseIdx k,
             syncQueue := saveSyncQueueFilter s.now s.syncQueue }
  | some (a :: rest) =>
    let r := drainStep1 (fun _ => outcome) s.now a ⟨s.syncQueue, s.sends, s.timers⟩
    let s2 := { s with syncQueue := r.queue, sends := r.sends, timers := r.timers,
                       drains := s.drains.set k rest }
    if rest.isEmpty then
      { s2 with drains := s2.drains.eraseIdx k,
                syncQueue := saveSyncQueueFilter s2.now s2.syncQueue }
    else s2

/-- Firing of retry timer `j`: the callback runs `syncItem(item)` only when
`isOnline`; `syncItem` issues the fetch regardless of the entry's current
status.  On success the entry is (re)marked completed; a failure inside
the timer callback is an unhandled rejection — nothing is updated and no
further retry is scheduled. -/
def fireTimer (s : MState) (j : Nat) (outcome : Bool) : MState :=
  match s.timers.get? j with
  | none => s
  | some (_, a) =>
    let s1 := { s with timers := s.timers.eraseIdx j }
    if s1.isOnline then
      let s2 := { s1 with sends := s1.sends ++ [a] }
      if outcome then
        { s2 with syncQueue := updateById s2.syncQueue a (syncItemSuccess s2.now) }
      else s2
    else s1

/-- Scheduler actions: connectivity notifications, a user enqueue, the
periodic 30-second drain trigger (guarded on `isOnline` and a non-empty
queue, as in `setupPeriodicSync`), one resumption of an in-flight drain,
and the firing of a retry timer. -/
inductive Act where
  | online
  | offline
  | enqueue (type data endpoint method : String) (newId : Nat)
  | startDrain
  | drainStep (k : Nat) (outcome : Bool)
  | timerFire (j : Nat) (outcome : Bool)
  deriving Repr, DecidableEq

/-- One machine step. -/
def stepAct (s : MState) : Act → MState
  | Act.online => handleOnline s
  | Act.offline => handleOffline s
  | Act.enqueue t d e m i => addToSyncQueue s t d e m i
  | Act.startDrain =>
    if s.isOnline && !s.syncQueue.isEmpty then processSyncQueueStart s else s
  | Act.drainStep k oc => stepDrain s k oc
  | Act.timerFire j oc => fireTimer s j oc

/-- Run a schedule. -/
def runActs (s : MState) (l : List Act) : MState :=
  l.foldl stepAct s

/-- Startup state: `initializeOfflineStores` creates an empty sync queue on
first run; no tasks are in flight. -/
def initState (online : Bool) (now : Nat) : MState :=
  { isOnline := online, syncQueue := [], drains := [], timers := [],
    sends := [], drainCalls := 0, now := now }

/-- States the machine can actually reach from startup. -/
inductive Reachable : MState → Prop where
  | init (online : Bool) (now : Nat) : Reachable (initState online now)
  | step (s : MState) (a : Act) : Reachable s → Reachable (stepAct s a)

/-- Aggregate counts returned by `getSyncStats`. -/
structure SyncStats where
  total : Nat
  pending : Nat
  completed : Nat
  failed : Nat
  isOnline : Bool
  deriving Repr, DecidableEq

/-- Embedding of `OfflineManager.getSyncStats`: filter counts over the
queue plus the connectivity flag; a pure read of the state. -/
def getSyncStats (s : MState) : SyncStats :=
  { total := s.syncQueue.length,
    pending := (s.syncQueue.filter (fun i => i.status = "pending")).length,
    completed := (s.syncQueue.filter (fun i => i.status = "completed")).length,
    failed := (s.syncQueue.filter (fun i => i.status = "failed")).length,
    isOnline := s.isOnline }

/-! ## Sequential drain

A drain that runs from invocation to completion with no other task
interleaved: the loop over the pending snapshot, each entry's outcome
given by `outcome` applied to its id, followed by `saveSyncQueue`.  This
is `processSyncQueue` exactly when the scheduler lets it run alone. -/

/-- The `for (const item of pendingItems)` loop of `processSyncQueue`,
applied down the snapshot. -/
def drainLoop (outcome : Nat → Bool) (now : Nat) : List Nat → DrainResult → DrainResult
  | [], r => r
  | a :: rest, r => drainLoop outcome now rest (drainStep1 outcome now a r)

/-- A full uninterleaved `processSyncQueue` run. -/
def processSyncQueueSeq (outcome : Nat → Bool) (now : Nat) (isOnline : Bool)
    (q : List SyncItem) : DrainResult :=
  if !isOnline || q.isEmpty then { queue := q, sends := [], timers := [] }
  else
    let r := drainLoop outcome now (pendingIds q) { queue := q, sends := [], timers := [] }
    { r with queue := saveSyncQueueFilter now r.queue }


/-- Invariant on retry counters: no entry's counter exceeds `maxRetries`,
and a pending entry's counter is strictly below it. -/
def retriesInv (q : List SyncItem) : Prop :=
  ∀ i ∈ q, i.retries ≤ maxRetries ∧ (i.status = "pending" → i.retries < maxRetries)

/-- Closure predicate: every entry's status is one of the three strings the
source ever assigns. -/
def statusesOK (q : List SyncItem) : Prop :=
  ∀ i ∈ q, statusOK i.status = true

/-! ## Concrete schedules

Executable scenarios on the machine, used to settle the interleaving
properties at explicit inputs.  All start offline at wall-clock time
`10^8` ms (so that completed entries survive the 24-hour retention filter
run at drain end). -/

/-- Enqueue action for an alert submission with id `n`. -/
def enqueueAct (n : Nat) : Act :=
  Act.enqueue "sos-alert" "flood at field-3" "/api/sos" "POST" n

/-- Startup state for the scenarios: offline, empty queue. -/
def traceBase : MState := initState false 100000000

/-- Five entries enqueued offline; connectivity returns (`handleOnline`
snapshots all five into a first drain, suspended at its first fetch); the
periodic trigger starts a second drain before the first completes, whose
snapshot also holds all five (still pending); then both drains run to
completion with every fetch succeeding. -/
def twoDrainsState : MState :=
  runActs traceBase
    ([enqueueAct 1, enqueueAct 2, enqueueAct 3, enqueueAct 4, enqueueAct 5,
      Act.online, Act.startDrain] ++
     List.replicate 5 (Act.drainStep 0 true) ++
     List.replicate 5 (Act.drainStep 0 true))

/-- One entry enqueued offline; connectivity returns and the entry's
delivery attempts all fail: first drain attempt (schedules a retry timer),
the retry-timer attempt (an uncounted unhandled rejection), and a second
drain attempt.  Three failed delivery attempts in total. -/
def threeFailsState : MState :=
  runActs traceBase
    [enqueueAct 1, Act.online, Act.drainStep 0 false, Act.timerFire 0 false,
     Act.startDrain, Act.drainStep 0 false]

/-- One entry enqueued offline; connectivity returns; the first drain
attempt fails and schedules a retry timer; a second drain then completes
the entry.  The retry timer is still pending when the entry is already
completed. -/
def lateTimerState : MState :=
  runActs traceBase
    [enqueueAct 1, Act.online, Act.drainStep 0 false,
     Act.startDrain, Act.drainStep 0 true]

/-! ## Theorems: weather cache and service worker -/

/-- C5: a stored weather record with timestamp `cachedAt = t` is returned
by `getCachedWeatherData` at time `now` when `now - t ≤ maxAge` (6 hours)
with the store untouched; when `now - t > maxAge` the record is removed
and null is returned; with nothing stored, null is returned. -/
theorem weather_cache_ttl (store : WeatherStore) (now : Nat) :
    (store = none → getCachedWeatherData store now = (none, none)) ∧
    (∀ d t, store = some (d, t) → now - t ≤ maxAge →
      getCachedWeatherData store now = (some (d, t), some (d, t))) ∧
    (∀ d t, store = some (d, t) → maxAge < now - t →
      getCachedWeatherData store now = (none, none)) := by
  refine ⟨?_, ?_, ?_⟩
  · rintro rfl; rfl
  · rintro d t rfl h
    simp [getCachedWeatherData, Nat.not_lt.mpr h]
  · rintro d t rfl h
    simp [getCachedWeatherData, h]

/-- Witness for `weather_cache_ttl`: the record cached at time 0 is still
returned at 5h59m, evicted at 6h01m, and the empty store yields null. -/
theorem weather_cache_ttl_witness :
    getCachedWeatherData (cacheWeatherData "storm" 0) (359 * 60 * 1000) =
      (some ("storm", 0), some ("storm", 0)) ∧
    getCachedWeatherData (cacheWeatherData "storm" 0) (361 * 60 * 1000) = (none, none) ∧
    getCachedWeatherData none (361 * 60 * 1000) = (none, none) :=
  ⟨(weather_cache_ttl (cacheWeatherData "storm" 0) (359 * 60 * 1000)).2.1 "storm" 0 rfl
      (by decide),
   (weather_cache_ttl (cacheWeatherData "storm" 0) (361 * 60 * 1000)).2.2 "storm" 0 rfl
      (by decide),
   (weather_cache_ttl none (361 * 60 * 1000)).1 rfl⟩

/-- C6: when the network attempt throws and no cached response exists, the
API handler synthesizes: for `/api/sync` the
`{success: true, data: {sos: [], queries: [], weather: []}, offline: true}`
payload; for `/api/voice-query` the canned offline acknowledgement; for
any other API path the 503 `{success: false, error: "Service unavailable
offline", offline: true}` response. -/
theorem offline_api_fallback (p : String) (hapi : isAPIRequest p = true) :
    (p = "/api/sync" →
      (handleAPIRequest p none NetOutcome.throw).response =
        { status := 200,
          body := { success := some true, data := some ⟨[], [], []⟩,
                    offline := some true } }) ∧
    (p = "/api/voice-query" →
      (handleAPIRequest p none NetOutcome.throw).response =
        { status := 200,
          body := { success := some true,
                    response := some "I\x27m currently offline. Your question has been saved and I\x27ll respond when connectivity is restored.",
                    offline := some true } }) ∧
    (p ≠ "/api/sync" → p ≠ "/api/voice-query" →
      (handleAPIRequest p none NetOutcome.throw).response =
        { status := 503,
          body := { success := some false, error := some "Service unavailable offline",
                    offline := some true } }) := by
  refine ⟨?_, ?_, ?_⟩
  · rintro rfl; rfl
  · rintro rfl; rfl
  · intro h1 h2
    simp [handleAPIRequest, handleOfflineAPIResponse, h1, h2]

/-- Witness for `offline_api_fallback`: the three fallbacks at the
concrete paths `/api/sync`, `/api/voice-query` and `/api/weather`. -/
theorem offline_api_fallback_witness :
    (handleAPIRequest "/api/sync" none NetOutcome.throw).response =
      { status := 200,
        body := { success := some true, data := some ⟨[], [], []⟩,
                  offline := some true } } ∧
    (handleAPIRequest "/api/voice-query" none NetOutcome.throw).response =
      { status := 200,
        body := { success := some true,
                  response := some "I\x27m currently offline. Your question has been saved and I\x27ll respond when connectivity is restored.",
                  offline := some true } } ∧
    (handleAPIRequest "/api/weather" none NetOutcome.throw).response =
      { status := 503,
        body := { success := some false, error := some "Service unavailable offline",
                  offline := some true } } :=
  ⟨(offline_api_fallback "/api/sync" (by decide)).1 rfl,
   (offline_api_fallback "/api/voice-query" (by decide)).2.1 rfl,
   (offline_api_fallback "/api/weather" (by decide)).2.2 (by decide) (by decide)⟩

/-- C7: a GET whose path is classified as a static asset is routed to the
cache-first handler; a cache hit is returned with no network attempt; on a
cache miss an ok network response is stored into the cache and returned;
and when the cache misses and the fetch throws, the 503 unavailable-offline
response is returned. -/
theorem static_cache_first (p : String) (hstatic : isStaticFile p = true)
    (acceptsHtml : Bool) (cache : Option Resp) (net : NetOutcome) :
    classifyRequest "GET" p acceptsHtml = Route.staticFile ∧
    (∀ c, cache = some c →
      handleStaticFile cache net = ⟨c, some c, false⟩) ∧
    (∀ r, cache = none → net = NetOutcome.resp r → respOk r = true →
      handleStaticFile cache net = ⟨r, some r, true⟩) ∧
    (cache = none → net = NetOutcome.throw →
      (handleStaticFile cache net).response.status = 503 ∧
        (handleStaticFile cache net).networkAttempted = true) := by
  refine ⟨by simp [classifyRequest, hstatic], ?_, ?_, ?_⟩
  · rintro c rfl; rfl
  · rintro r rfl rfl hok
    simp [handleStaticFile, hok]
  · rintro rfl rfl
    exact ⟨rfl, rfl⟩

/-- Witness for `static_cache_first` at `/css/app.css`: the cached copy is
served with no fetch, an ok fetch result is cached and served, and the
miss-plus-throw case yields 503. -/
theorem static_cache_first_witness :
    classifyRequest "GET" "/css/app.css" false = Route.staticFile ∧
    handleStaticFile (some { status := 200 }) NetOutcome.throw =
      ⟨{ status := 200 }, some { status := 200 }, false⟩ ∧
    handleStaticFile none (NetOutcome.resp { status := 200 }) =
      ⟨{ status := 200 }, some { status := 200 }, true⟩ ∧
    (handleStaticFile none NetOutcome.throw).response.status = 503 :=
  ⟨(static_cache_first "/css/app.css" (by decide) false (some { status := 200 })
      NetOutcome.throw).1,
   (static_cache_first "/css/app.css" (by decide) false (some { status := 200 })
      NetOutcome.throw).2.1 { status := 200 } rfl,
   (static_cache_first "/css/app.css" (by decide) false none
      (NetOutcome.resp { status := 200 })).2.2.1 { status := 200 } rfl rfl (by decide),
   ((static_cache_first "/css/app.css" (by decide) false none
      NetOutcome.throw).2.2.2 rfl rfl).1⟩

/-- C8: a POST whose fetch throws is not served from any cache (the POST
handler consults none); the request is appended to the failed-request
store for later background sync, and the caller receives status 202
(Accepted) with a body whose `queued` flag is set and whose message says
the request was queued. -/
theorem post_queued_when_network_fails (net : NetOutcome) (store : List QueuedRequest)
    (url method reqBody : String) (now newId : Nat) (acceptsHtml : Bool)
    (hthrow : net = NetOutcome.throw) :
    classifyRequest "POST" url acceptsHtml = Route.post ∧
    handlePostRequest net store url method reqBody now newId =
      ({ status := 202,
         body := { success := some false,
                   message := some "Request queued for sync when online",
                   queued := some true } },
       store ++ [⟨url, method, reqBody, now, newId⟩]) := by
  subst hthrow
  exact ⟨rfl, rfl⟩

/-- Witness for `post_queued_when_network_fails`: a concrete failed POST to
the alert endpoint is queued and acknowledged with 202. -/
theorem post_queued_when_network_fails_witness :
    handlePostRequest NetOutcome.throw [] "/api/sos" "POST" "flood at field-3" 17 1 =
      ({ status := 202,
         body := { success := some false,
                   message := some "Request queued for sync when online",
                   queued := some true } },
       [⟨"/api/sos", "POST", "flood at field-3", 17, 1⟩]) :=
  (post_queued_when_network_fails NetOutcome.throw [] "/api/sos" "POST"
    "flood at field-3" 17 1 false rfl).2

/-! ## Lemma layer: queue primitives -/

theorem getById_cons (x : SyncItem) (xs : List SyncItem) (b : Nat) :
    getById (x :: xs) b = if x.id = b then some x else getById xs b := by
  by_cases h : x.id = b <;> simp [getById, List.find?, h]

theorem updateById_cons (x : SyncItem) (xs : List SyncItem) (a : Nat) (f : SyncItem → SyncItem) :
    updateById (x :: xs) a f = (if x.id = a then f x else x) :: updateById xs a f := rfl

theorem updateById_map_id (q : List SyncItem) (a : Nat) (f : SyncItem → SyncItem)
    (h : ∀ x ∈ q, x.id = a → (f x).id = x.id) :
    (updateById q a f).map (fun i => i.id) = q.map (fun i => i.id) := by
  unfold updateById
  rw [List.map_map]
  apply List.map_congr_left
  intro x hx
  by_cases hxa : x.id = a
  · simp [hxa, h x hx hxa]
  · simp [hxa]

theorem getById_mem {q : List SyncItem} {a : Nat} {i : SyncItem}
    (h : getById q a = some i) : i ∈ q ∧ i.id = a := by
  refine ⟨List.mem_of_find?_eq_some h, ?_⟩
  have := List.find?_some h
  exact of_decide_eq_true this

theorem getById_eq_of_nodup {q : List SyncItem}
    (hnodup : (q.map (fun i => i.id)).Nodup) {i : SyncItem} (hi : i ∈ q) :
    getById q i.id = some i := by
  induction q with
  | nil => cases hi
  | cons x xs ih =>
    rw [List.map_cons, List.nodup_cons] at hnodup
    rw [getById_cons]
    rcases List.mem_cons.mp hi with rfl | hmem
    · simp
    · have hx : ¬ x.id = i.id := by
        intro he
        exact hnodup.1 (he ▸ List.mem_map_of_mem (fun i => i.id) hmem)
      rw [if_neg hx]
      exact ih hnodup.2 hmem

theorem mem_updateById_of_ne {q : List SyncItem} {a : Nat} {f : SyncItem → SyncItem}
    {i : SyncItem} (hi : i ∈ q) (hne : ¬ i.id = a) : i ∈ updateById q a f := by
  unfold updateById
  have : (fun x => if x.id = a then f x else x) i = i := by simp [hne]
  exact this ▸ List.mem_map_of_mem _ hi

theorem getById_updateById_ne {q : List SyncItem} {a b : Nat} {f : SyncItem → SyncItem}
    (hne : ¬ b = a) (hpres : ∀ x ∈ q, x.id = a → (f x).id = x.id) :
    getById (updateById q a f) b = getById q b := by
  induction q with
  | nil => rfl
  | cons x xs ih =>
    have hxid : (if x.id = a then f x else x).id = x.id := by
      by_cases hxa : x.id = a
      · simp [hxa, hpres x (List.mem_cons_self x xs) hxa]
      · simp [hxa]
    rw [updateById_cons, getById_cons, getById_cons, hxid]
    by_cases hxb : x.id = b
    · have hxa : ¬ x.id = a := by
        intro hxa
        rw [hxa] at hxb
        exact hne hxb.symm
      rw [if_pos hxb, if_pos hxb, if_neg hxa]
    · rw [if_neg hxb, if_neg hxb]
      exact ih (fun y hy => hpres y (List.mem_cons_of_mem x hy))

theorem getById_updateById_self {q : List SyncItem} {a : Nat} {f : SyncItem → SyncItem}
    {i : SyncItem} (h : getById q a = some i) (hf : (f i).id = a) :
    getById (updateById q a f) a = some (f i) := by
  induction q with
  | nil => simp [getById] at h
  | cons x xs ih =>
    rw [getById_cons] at h
    rw [updateById_cons, getById_cons]
    by_cases hxa : x.id = a
    · rw [if_pos hxa] at h
      have hx : x = i := Option.some.inj h
      subst hx
      rw [if_pos hxa, if_pos hf]
    · rw [if_neg hxa] at h
      have hxid : (if x.id = a then f x else x) = x := if_neg hxa
      rw [hxid, if_neg hxa]
      exact ih h

theorem getById_filter {q : List SyncItem} {b : Nat} {i : SyncItem}
    {pred : SyncItem → Bool} (h : getById q b = some i) (hp : pred i = true) :
    getById (q.filter pred) b = some i := by
  induction q with
  | nil => simp [getById] at h
  | cons x xs ih =>
    rw [getById_cons] at h
    rw [List.filter_cons]
    by_cases hxb : x.id = b
    · rw [if_pos hxb] at h
      have hx : x = i := Option.some.inj h
      subst hx
      rw [if_pos hp, getById_cons, if_pos hxb]
    · rw [if_neg hxb] at h
      by_cases hpx : pred x = true
      · rw [if_pos hpx, getById_cons, if_neg hxb]
        exact ih h
      · rw [if_neg hpx]
        exact ih h

theorem syncItemSuccess_id (now : Nat) (i : SyncItem) : (syncItemSuccess now i).id = i.id := rfl

theorem drainFail_id (i : SyncItem) : (drainFail i).id = i.id := by
  unfold drainFail
  split <;> rfl

theorem drainStep1_sends (o : Nat → Bool) (now a : Nat) (r : DrainResult) :
    (drainStep1 o now a r).sends = r.sends ++ [a] := by
  unfold drainStep1
  cases h : o a
  · simp only [h, Bool.false_eq_true, if_false]
    cases hg : getById r.queue a
    · simp [hg]
    · simp only [hg]
      split <;> rfl
  · simp [h]

theorem drainStep1_timers_suffix (o : Nat → Bool) (now a : Nat) (r : DrainResult) :
    ∃ ts, (drainStep1 o now a r).timers = r.timers ++ ts := by
  unfold drainStep1
  cases h : o a
  · simp only [h, Bool.false_eq_true, if_false]
    cases hg : getById r.queue a
    · exact ⟨[], by simp [hg]⟩
    · simp only [hg]
      split
      · exact ⟨_, rfl⟩
      · exact ⟨[], by simp⟩
  · exact ⟨[], by simp [h]⟩

theorem drainStep1_map_id (o : Nat → Bool) (now a : Nat) (r : DrainResult) :
    (drainStep1 o now a r).queue.map (fun i => i.id) = r.queue.map (fun i => i.id) := by
  unfold drainStep1
  cases h : o a
  · simp only [h, Bool.false_eq_true, if_false]
    cases hg : getById r.queue a
    · simp [hg]
    · simp only [hg]
      split
      · exact updateById_map_id _ _ _
          (fun x _ hx => by rw [drainFail_id, (getById_mem hg).2, hx])
      · exact updateById_map_id _ _ _
          (fun x _ hx => by rw [drainFail_id, (getById_mem hg).2, hx])
  · simp only [h, if_true]
    exact updateById_map_id _ _ _ (fun x _ _ => syncItemSuccess_id now x)

theorem drainStep1_getById_ne (o : Nat → Bool) (now a : Nat) (r : DrainResult) (b : Nat)
    (hne : ¬ b = a) :
    getById (drainStep1 o now a r).queue b = getById r.queue b := by
  unfold drainStep1
  cases h : o a
  · simp only [h, Bool.false_eq_true, if_false]
    cases hg : getById r.queue a
    · simp [hg]
    · simp only [hg]
      split
      · exact getById_updateById_ne hne
          (fun x _ hx => by rw [drainFail_id, (getById_mem hg).2, hx])
      · exact getById_updateById_ne hne
          (fun x _ hx => by rw [drainFail_id, (getById_mem hg).2, hx])
  · simp only [h, if_true]
    exact getById_updateById_ne hne (fun x _ _ => syncItemSuccess_id now x)

theorem drainStep1_mem_of_ne (o : Nat → Bool) (now a : Nat) (r : DrainResult)
    {i : SyncItem} (hi : i ∈ r.queue) (hne : ¬ i.id = a) :
    i ∈ (drainStep1 o now a r).queue := by
  unfold drainStep1
  cases h : o a
  · simp only [h, Bool.false_eq_true, if_false]
    cases hg : getById r.queue a
    · simp [hg]; exact hi
    · simp only [hg]
      split
      · exact mem_updateById_of_ne hi hne
      · exact mem_updateById_of_ne hi hne
  · simp only [h, if_true]
    exact mem_updateById_of_ne hi hne

theorem drainStep1_getById_self (o : Nat → Bool) (now a : Nat) (r : DrainResult)
    {i : SyncItem} (h : getById r.queue a = some i) :
    getById (drainStep1 o now a r).queue a =
      some (if o a then syncItemSuccess now i else drainFail i) := by
  cases ho : o a
  · unfold drainStep1
    simp only [ho, Bool.false_eq_true, if_false, h]
    split
    · exact getById_updateById_self h (by rw [drainFail_id, (getById_mem h).2])
    · exact getById_updateById_self h (by rw [drainFail_id, (getById_mem h).2])
  · unfold drainStep1
    simp only [ho, if_true]
    exact getById_updateById_self h (by rw [syncItemSuccess_id, (getById_mem h).2])

theorem drainStep1_timer_scheduled (o : Nat → Bool) (now a : Nat) (r : DrainResult)
    {i : SyncItem} (h : getById r.queue a = some i) (hf : o a = false)
    (hlt : i.retries + 1 < maxRetries) :
    (drainStep1 o now a r).timers = r.timers ++ [(retryDelay * (i.retries + 1), a)] := by
  have hfail : drainFail i = { i with retries := i.retries + 1 } := by
    unfold drainFail
    rw [if_neg (by omega)]
  unfold drainStep1
  simp only [hf, Bool.false_eq_true, if_false, h, hfail]
  rw [if_pos (by simpa using hlt)]

theorem drainLoop_cons (o : Nat → Bool) (now a : Nat) (rest : List Nat) (r : DrainResult) :
    drainLoop o now (a :: rest) r = drainLoop o now rest (drainStep1 o now a r) := rfl

theorem drainLoop_sends (o : Nat → Bool) (now : Nat) (snap : List Nat) (r : DrainResult) :
    (drainLoop o now snap r).sends = r.sends ++ snap := by
  induction snap generalizing r with
  | nil => simp [drainLoop]
  | cons a rest ih =>
    rw [drainLoop_cons, ih, drainStep1_sends]
    simp

theorem drainLoop_timers_suffix (o : Nat → Bool) (now : Nat) (snap : List Nat)
    (r : DrainResult) : ∃ ts, (drainLoop o now snap r).timers = r.timers ++ ts := by
  induction snap generalizing r with
  | nil => exact ⟨[], by simp [drainLoop]⟩
  | cons a rest ih =>
    obtain ⟨ts1, h1⟩ := drainStep1_timers_suffix o now a r
    obtain ⟨ts2, h2⟩ := ih (drainStep1 o now a r)
    exact ⟨ts1 ++ ts2, by rw [drainLoop_cons, h2, h1, List.append_assoc]⟩

theorem drainLoop_map_id (o : Nat → Bool) (now : Nat) (snap : List Nat) (r : DrainResult) :
    (drainLoop o now snap r).queue.map (fun i => i.id) = r.queue.map (fun i => i.id) := by
  induction snap generalizing r with
  | nil => simp [drainLoop]
  | cons a rest ih =>
    rw [drainLoop_cons, ih, drainStep1_map_id]

theorem drainLoop_getById_notin (o : Nat → Bool) (now : Nat) (snap : List Nat)
    (r : DrainResult) (b : Nat) (hb : ¬ b ∈ snap) :
    getById (drainLoop o now snap r).queue b = getById r.queue b := by
  induction snap generalizing r with
  | nil => simp [drainLoop]
  | cons a rest ih =>
    rw [drainLoop_cons]
    have hba : ¬ b = a := fun h => hb (h ▸ List.mem_cons_self a rest)
    have hbr : ¬ b ∈ rest := fun h => hb (List.mem_cons_of_mem a h)
    rw [ih _ hbr, drainStep1_getById_ne o now a r b hba]

theorem drainLoop_getById_process (o : Nat → Bool) (now : Nat) (snap : List Nat)
    (r : DrainResult) (i : SyncItem) (hsnap : snap.Nodup)
    (hq : (r.queue.map (fun i => i.id)).Nodup)
    (hi : i ∈ r.queue) (hin : i.id ∈ snap) :
    getById (drainLoop o now snap r).queue i.id =
      some (if o i.id then syncItemSuccess now i else drainFail i) := by
  induction snap generalizing r with
  | nil => cases hin
  | cons a rest ih =>
    rw [List.nodup_cons] at hsnap
    rw [drainLoop_cons]
    by_cases ha : i.id = a
    · subst ha
      have hfind : getById r.queue i.id = some i := getById_eq_of_nodup hq hi
      rw [drainLoop_getById_notin o now rest _ i.id hsnap.1]
      exact drainStep1_getById_self o now i.id r hfind
    · have hin2 : i.id ∈ rest := by
        rcases List.mem_cons.mp hin with h | h
        · exact absurd h ha
        · exact h
      exact ih (drainStep1 o now a r) hsnap.2
        (by rw [drainStep1_map_id]; exact hq)
        (drainStep1_mem_of_ne o now a r hi ha) hin2

theorem drainLoop_timer_mem (o : Nat → Bool) (now : Nat) (snap : List Nat)
    (r : DrainResult) (i : SyncItem) (hsnap : snap.Nodup)
    (hq : (r.queue.map (fun i => i.id)).Nodup)
    (hi : i ∈ r.queue) (hin : i.id ∈ snap)
    (hf : o i.id = false) (hlt : i.retries + 1 < maxRetries) :
    (retryDelay * (i.retries + 1), i.id) ∈ (drainLoop o now snap r).timers := by
  induction snap generalizing r with
  | nil => cases hin
  | cons a rest ih =>
    rw [List.nodup_cons] at hsnap
    rw [drainLoop_cons]
    by_cases ha : i.id = a
    · subst ha
      have hfind : getById r.queue i.id = some i := getById_eq_of_nodup hq hi
      have hstep : (drainStep1 o now i.id r).timers =
          r.timers ++ [(retryDelay * (i.retries + 1), i.id)] :=
        drainStep1_timer_scheduled o now i.id r hfind hf hlt
      obtain ⟨ts, hts⟩ := drainLoop_timers_suffix o now rest (drainStep1 o now i.id r)
      rw [hts, hstep]
      simp
    · have hin2 : i.id ∈ rest := by
        rcases List.mem_cons.mp hin with h | h
        · exact absurd h ha
        · exact h
      exact ih (drainStep1 o now a r) hsnap.2
        (by rw [drainStep1_map_id]; exact hq)
        (drainStep1_mem_of_ne o now a r hi ha) hin2

theorem pendingIds_nodup {q : List SyncItem} (hq : (q.map (fun i => i.id)).Nodup) :
    (pendingIds q).Nodup := by
  unfold pendingIds
  exact hq.sublist ((q.filter_sublist).map (fun i => i.id))

theorem mem_pendingIds {q : List SyncItem} {i : SyncItem} (hi : i ∈ q)
    (hp : i.status = "pending") : i.id ∈ pendingIds q := by
  unfold pendingIds
  exact List.mem_map_of_mem _ (List.mem_filter.mpr ⟨hi, by simp [hp]⟩)

theorem of_mem_pendingIds {q : List SyncItem} {b : Nat} (h : b ∈ pendingIds q) :
    ∃ j, j ∈ q ∧ j.id = b ∧ j.status = "pending" := by
  unfold pendingIds at h
  obtain ⟨x, hx, hxb⟩ := List.mem_map.mp h
  obtain ⟨hxq, hxp⟩ := List.mem_filter.mp hx
  exact ⟨x, hxq, hxb, by simpa using hxp⟩

theorem eq_of_mem_of_id_eq {q : List SyncItem} (hq : (q.map (fun i => i.id)).Nodup)
    {x y : SyncItem} (hx : x ∈ q) (hy : y ∈ q) (he : x.id = y.id) : x = y :=
  List.inj_on_of_nodup_map hq hx hy he

theorem not_mem_pendingIds_of_failed {q : List SyncItem}
    (hq : (q.map (fun i => i.id)).Nodup) {i : SyncItem} (hi : i ∈ q)
    (hf : i.status = "failed") : ¬ i.id ∈ pendingIds q := by
  intro h
  obtain ⟨j, hjq, hjid, hjp⟩ := of_mem_pendingIds h
  have : j = i := eq_of_mem_of_id_eq hq hjq hi hjid
  rw [this, hf] at hjp
  exact absurd hjp (by decide)

theorem retriesInv_filter {q : List SyncItem} {pred : SyncItem → Bool}
    (h : retriesInv q) : retriesInv (q.filter pred) :=
  fun i hi => h i (List.mem_of_mem_filter hi)

theorem retriesInv_updateById {q : List SyncItem} {a : Nat} {f : SyncItem → SyncItem}
    (h : retriesInv q)
    (hf : ∀ x ∈ q, x.id = a →
      (f x).retries ≤ maxRetries ∧ ((f x).status = "pending" → (f x).retries < maxRetries)) :
    retriesInv (updateById q a f) := by
  intro i hi
  unfold updateById at hi
  obtain ⟨x, hx, hix⟩ := List.mem_map.mp hi
  by_cases hxa : x.id = a
  · rw [if_pos hxa] at hix
    exact hix ▸ hf x hx hxa
  · rw [if_neg hxa] at hix
    exact hix ▸ h x hx

theorem drainFail_inv {j : SyncItem} (hjr : j.retries < maxRetries) :
    (drainFail j).retries ≤ maxRetries ∧
      ((drainFail j).status = "pending" → (drainFail j).retries < maxRetries) := by
  unfold drainFail
  split
  · refine ⟨by simp; omega, ?_⟩
    intro hps
    rw [show ({ j with retries := j.retries + 1, status := "failed" } : SyncItem).status =
      "failed" from rfl] at hps
    exact absurd hps (by decide)
  · next hcond =>
    have : j.retries + 1 < maxRetries := by omega
    exact ⟨by simp; omega, fun _ => by simp; omega⟩

theorem retriesInv_drainStep1 (o : Nat → Bool) (now a : Nat) (r : DrainResult)
    (hinv : retriesInv r.queue)
    (hpend : ∀ j, getById r.queue a = some j → j.status = "pending") :
    retriesInv (drainStep1 o now a r).queue := by
  unfold drainStep1
  cases h : o a
  · simp only [h, Bool.false_eq_true, if_false]
    cases hg : getById r.queue a
    · simpa [hg] using hinv
    · next j =>
      simp only [hg]
      have hjp : j.status = "pending" := hpend j hg
      have hjr : j.retries < maxRetries := (hinv j (getById_mem hg).1).2 hjp
      split
      · exact retriesInv_updateById hinv (fun x _ _ => drainFail_inv hjr)
      · exact retriesInv_updateById hinv (fun x _ _ => drainFail_inv hjr)
  · simp only [h, if_true]
    apply retriesInv_updateById hinv
    intro x hx _
    refine ⟨(hinv x hx).1, ?_⟩
    intro hps
    rw [show (syncItemSuccess now x).status = "completed" from rfl] at hps
    exact absurd hps (by decide)

theorem retriesInv_drainLoop (o : Nat → Bool) (now : Nat) (snap : List Nat)
    (r : DrainResult) (hinv : retriesInv r.queue) (hsnap : snap.Nodup)
    (hpend : ∀ b ∈ snap, ∀ j, getById r.queue b = some j → j.status = "pending") :
    retriesInv (drainLoop o now snap r).queue := by
  induction snap generalizing r with
  | nil => simpa [drainLoop] using hinv
  | cons a rest ih =>
    rw [List.nodup_cons] at hsnap
    rw [drainLoop_cons]
    apply ih (drainStep1 o now a r)
    · exact retriesInv_drainStep1 o now a r hinv
        (fun j hj => hpend a (List.mem_cons_self a rest) j hj)
    · exact hsnap.2
    · intro b hb j hj
      have hba : ¬ b = a := fun h => hsnap.1 (h ▸ hb)
      rw [drainStep1_getById_ne o now a r b hba] at hj
      exact hpend b (List.mem_cons_of_mem a hb) j hj

theorem processSyncQueueSeq_sends (o : Nat → Bool) (now : Nat) (q : List SyncItem)
    (hne : q.isEmpty = false) :
    (processSyncQueueSeq o now true q).sends = pendingIds q := by
  unfold processSyncQueueSeq
  simp [hne, drainLoop_sends]

theorem processSyncQueueSeq_timers (o : Nat → Bool) (now : Nat) (q : List SyncItem)
    (hne : q.isEmpty = false) :
    (processSyncQueueSeq o now true q).timers =
      (drainLoop o now (pendingIds q) ⟨q, [], []⟩).timers := by
  unfold processSyncQueueSeq
  simp [hne]

theorem processSyncQueueSeq_queue (o : Nat → Bool) (now : Nat) (q : List SyncItem)
    (hne : q.isEmpty = false) :
    (processSyncQueueSeq o now true q).queue =
      saveSyncQueueFilter now (drainLoop o now (pendingIds q) ⟨q, [], []⟩).queue := by
  unfold processSyncQueueSeq
  simp [hne]

theorem isEmpty_false_of_mem {q : List SyncItem} {i : SyncItem} (hi : i ∈ q) :
    q.isEmpty = false := by
  cases q with
  | nil => cases hi
  | cons x xs => rfl

/-- C1 (amended): a single uninterleaved drain delivers each entry pending
at its snapshot exactly once. The guarantee is per invocation only: the
fetch in `syncItem` is issued without re-reading the entry's status, so a
drain whose snapshot was taken while another drain was in flight delivers
the same entries again (see the two-drain schedule). -/
theorem single_drain_sends_each_pending_once (o : Nat → Bool) (now : Nat)
    (q : List SyncItem) (hq : (q.map (fun i => i.id)).Nodup)
    (i : SyncItem) (hi : i ∈ q) (hp : i.status = "pending") :
    ((processSyncQueueSeq o now true q).sends).count i.id = 1 := by
  rw [processSyncQueueSeq_sends o now q (isEmpty_false_of_mem hi)]
  exact List.count_eq_one_of_mem (pendingIds_nodup hq) (mem_pendingIds hi hp)

/-- Witness for `single_drain_sends_each_pending_once`. -/
theorem single_drain_sends_each_pending_once_witness :
    ((processSyncQueueSeq (fun _ => true) 0 true
      [{ id := 1, type := "sos-alert", data := "d", endpoint := "/api/sos",
         method := "POST", timestamp := 0, retries := 0, status := "pending" }]).sends).count 1
      = 1 :=
  single_drain_sends_each_pending_once (fun _ => true) 0
    [{ id := 1, type := "sos-alert", data := "d", endpoint := "/api/sos",
       method := "POST", timestamp := 0, retries := 0, status := "pending" }]
    (by decide)
    { id := 1, type := "sos-alert", data := "d", endpoint := "/api/sos",
      method := "POST", timestamp := 0, retries := 0, status := "pending" }
    (by decide) rfl

/-- C2 (amended): under an uninterleaved drain, (a) the retries counter of
every entry stays at most `maxRetries` and a pending entry's counter stays
below it; (b) a pending entry whose attempt fails has its counter
incremented and is marked failed exactly when the counter reaches
`maxRetries`; (c) a failed entry is never again selected or sent by a
drain and is left untouched.  Scheduled timer retries perform extra
delivery attempts that bypass this counter (see the three-failure
schedule). -/
theorem drain_failure_semantics (o : Nat → Bool) (now : Nat) (q : List SyncItem)
    (hq : (q.map (fun i => i.id)).Nodup) :
    (retriesInv q → retriesInv (processSyncQueueSeq o now true q).queue) ∧
    (∀ i, i ∈ q → i.status = "pending" → o i.id = false →
      getById (processSyncQueueSeq o now true q).queue i.id = some (drainFail i)) ∧
    (∀ i, i ∈ q → i.status = "failed" →
      ¬ i.id ∈ (processSyncQueueSeq o now true q).sends ∧
      getById (processSyncQueueSeq o now true q).queue i.id = some i) := by
  have hpend : ∀ b ∈ pendingIds q, ∀ j, getById q b = some j → j.status = "pending" := by
    intro b hb j hj
    obtain ⟨x, hxq, hxb, hxp⟩ := of_mem_pendingIds hb
    obtain ⟨hjq, hjb⟩ := getById_mem hj
    have : j = x := eq_of_mem_of_id_eq hq hjq hxq (by rw [hjb, hxb])
    rw [this]
    exact hxp
  refine ⟨?_, ?_, ?_⟩
  · intro hinv
    cases hqe : q.isEmpty
    · rw [processSyncQueueSeq_queue o now q hqe]
      unfold saveSyncQueueFilter
      apply retriesInv_filter
      exact retriesInv_drainLoop o now (pendingIds q) ⟨q, [], []⟩ hinv
        (pendingIds_nodup hq) hpend
    · have : q = [] := List.isEmpty_iff.mp hqe
      subst this
      unfold processSyncQueueSeq
      simpa using hinv
  · intro i hi hp hf
    rw [processSyncQueueSeq_queue o now q (isEmpty_false_of_mem hi)]
    have hloop : getById (drainLoop o now (pendingIds q) ⟨q, [], []⟩).queue i.id =
        some (drainFail i) := by
      have := drainLoop_getById_process o now (pendingIds q) ⟨q, [], []⟩ i
        (pendingIds_nodup hq) hq hi (mem_pendingIds hi hp)
      rw [hf] at this
      simpa using this
    unfold saveSyncQueueFilter
    apply getById_filter hloop
    unfold drainFail
    split
    · simp [show decide ("failed" = "failed") = true from rfl]
    · simp [hp, show decide ("pending" = "pending") = true from rfl]
  · intro i hi hf
    have hnotin : ¬ i.id ∈ pendingIds q := not_mem_pendingIds_of_failed hq hi hf
    constructor
    · rw [processSyncQueueSeq_sends o now q (isEmpty_false_of_mem hi)]
      exact hnotin
    · rw [processSyncQueueSeq_queue o now q (isEmpty_false_of_mem hi)]
      have hloop : getById (drainLoop o now (pendingIds q) ⟨q, [], []⟩).queue i.id =
          some i := by
        rw [drainLoop_getById_notin o now (pendingIds q) ⟨q, [], []⟩ i.id hnotin]
        exact getById_eq_of_nodup hq hi
      unfold saveSyncQueueFilter
      apply getById_filter hloop
      simp [hf]

/-- Witness for `drain_failure_semantics`: a queue holding one pending
entry at its second retry and one already-failed entry; every attempt
fails.  The pending entry reaches retries = 3 and status failed; the
failed entry is not sent and is untouched. -/
theorem drain_failure_semantics_witness :
    (retriesInv
        [{ id := 1, type := "sos-alert", data := "d", endpoint := "/api/sos",
           method := "POST", timestamp := 0, retries := 2, status := "pending" },
         { id := 2, type := "voice-query", data := "e", endpoint := "/api/voice-query",
           method := "POST", timestamp := 0, retries := 3, status := "failed" }] →
      retriesInv (processSyncQueueSeq (fun _ => false) 0 true
        [{ id := 1, type := "sos-alert", data := "d", endpoint := "/api/sos",
           method := "POST", timestamp := 0, retries := 2, status := "pending" },
         { id := 2, type := "voice-query", data := "e", endpoint := "/api/voice-query",
           method := "POST", timestamp := 0, retries := 3, status := "failed" }]).queue) ∧
    getById (processSyncQueueSeq (fun _ => false) 0 true
        [{ id := 1, type := "sos-alert", data := "d", endpoint := "/api/sos",
           method := "POST", timestamp := 0, retries := 2, status := "pending" },
         { id := 2, type := "voice-query", data := "e", endpoint := "/api/voice-query",
           method := "POST", timestamp := 0, retries := 3, status := "failed" }]).queue 1 =
      some { id := 1, type := "sos-alert", data := "d", endpoint := "/api/sos",
             method := "POST", timestamp := 0, retries := 3, status := "failed" } ∧
    ¬ (2 : Nat) ∈ (processSyncQueueSeq (fun _ => false) 0 true
        [{ id := 1, type := "sos-alert", data := "d", endpoint := "/api/sos",
           method := "POST", timestamp := 0, retries := 2, status := "pending" },
         { id := 2, type := "voice-query", data := "e", endpoint := "/api/voice-query",
           method := "POST", timestamp := 0, retries := 3, status := "failed" }]).sends :=
  ⟨(drain_failure_semantics (fun _ => false) 0 _ (by decide)).1,
   by
    have h := (drain_failure_semantics (fun _ => false) 0
      [{ id := 1, type := "sos-alert", data := "d", endpoint := "/api/sos",
         method := "POST", timestamp := 0, retries := 2, status := "pending" },
       { id := 2, type := "voice-query", data := "e", endpoint := "/api/voice-query",
         method := "POST", timestamp := 0, retries := 3, status := "failed" }]
      (by decide)).2.1
      { id := 1, type := "sos-alert", data := "d", endpoint := "/api/sos",
        method := "POST", timestamp := 0, retries := 2, status := "pending" }
      (by decide) rfl rfl
    exact h,
   ((drain_failure_semantics (fun _ => false) 0 _ (by decide)).2.2
      { id := 2, type := "voice-query", data := "e", endpoint := "/api/voice-query",
        method := "POST", timestamp := 0, retries := 3, status := "failed" }
      (by decide) rfl).1⟩

/-- C9: when a pending entry's delivery attempt fails during a drain and
its incremented retries counter is still below `maxRetries`, a retry of
that entry is scheduled after `retryDelay * retries` milliseconds (5000 ms
base, linear backoff), as a task independent of the next drain. -/
theorem failed_attempt_schedules_linear_backoff_retry (o : Nat → Bool) (now : Nat)
    (q : List SyncItem) (hq : (q.map (fun i => i.id)).Nodup)
    (i : SyncItem) (hi : i ∈ q) (hp : i.status = "pending")
    (hf : o i.id = false) (hlt : i.retries + 1 < maxRetries) :
    (retryDelay * (i.retries + 1), i.id) ∈ (processSyncQueueSeq o now true q).timers := by
  rw [processSyncQueueSeq_timers o now q (isEmpty_false_of_mem hi)]
  exact drainLoop_timer_mem o now (pendingIds q) ⟨q, [], []⟩ i
    (pendingIds_nodup hq) hq hi (mem_pendingIds hi hp) hf hlt

/-- Witness for `failed_attempt_schedules_linear_backoff_retry`: an entry
at retries = 1 whose attempt fails gets a retry scheduled after
5000 * 2 = 10000 ms. -/
theorem failed_attempt_schedules_linear_backoff_retry_witness :
    ((10000 : Nat), (1 : Nat)) ∈ (processSyncQueueSeq (fun _ => false) 0 true
      [{ id := 1, type := "sos-alert", data := "d", endpoint := "/api/sos",
         method := "POST", timestamp := 0, retries := 1, status := "pending" }]).timers :=
  failed_attempt_schedules_linear_backoff_retry (fun _ => false) 0
    [{ id := 1, type := "sos-alert", data := "d", endpoint := "/api/sos",
       method := "POST", timestamp := 0, retries := 1, status := "pending" }]
    (by decide)
    { id := 1, type := "sos-alert", data := "d", endpoint := "/api/sos",
      method := "POST", timestamp := 0, retries := 1, status := "pending" }
    (by decide) rfl rfl (by decide)

/-- C3 (amended): a scheduled retry task is not guarded by the entry's
state.  When it fires while online it always issues the fetch (logged in
`sends`) — even when the entry is already completed or failed; on a
successful outcome it (re)marks the entry completed, and on failure it
changes nothing.  Only firing while offline performs no delivery attempt. -/
theorem retry_timer_unguarded (s : MState) (j d a : Nat) (oc : Bool)
    (h : s.timers.get? j = some (d, a)) :
    (s.isOnline = true →
      (fireTimer s j oc).sends = s.sends ++ [a] ∧
      (oc = false → (fireTimer s j oc).syncQueue = s.syncQueue) ∧
      (oc = true → (fireTimer s j oc).syncQueue =
        updateById s.syncQueue a (syncItemSuccess s.now))) ∧
    (s.isOnline = false →
      fireTimer s j oc = { s with timers := s.timers.eraseIdx j }) := by
  constructor
  · intro hon
    unfold fireTimer
    rw [h]
    simp only [hon, if_true]
    cases oc <;> simp
  · intro hoff
    unfold fireTimer
    rw [h]
    simp [hoff]

/-- Witness for `retry_timer_unguarded`: in the late-timer schedule the
entry is already completed, the retry timer is pending, and firing it
while online issues one more fetch without changing the queue. -/
theorem retry_timer_unguarded_witness :
    (fireTimer lateTimerState 0 false).sends = lateTimerState.sends ++ [1] ∧
    (fireTimer lateTimerState 0 false).syncQueue = lateTimerState.syncQueue :=
  ⟨((retry_timer_unguarded lateTimerState 0 5000 1 false (by decide)).1 (by decide)).1,
   ((retry_timer_unguarded lateTimerState 0 5000 1 false (by decide)).1 (by decide)).2.1 rfl⟩

theorem processSyncQueueStart_drainCalls (s : MState) :
    (processSyncQueueStart s).drainCalls = s.drainCalls + 1 := by
  unfold processSyncQueueStart
  dsimp only
  split
  · rfl
  · split <;> rfl

theorem runActs_cons (s : MState) (a : Act) (l : List Act) :
    runActs s (a :: l) = runActs (stepAct s a) l := rfl

/-- C4 (amended): `handleOnline` invokes `processSyncQueue` with no check
of the previous connectivity state, so every Online notification —
including repeated ones with no intervening Offline — triggers a drain
invocation, while Offline notifications trigger none: over any
notification sequence the number of drain invocations grows by exactly
the number of Online notifications. -/
theorem every_online_notification_triggers_drain (l : List Bool) (s : MState) :
    (runActs s (l.map (fun b => if b then Act.online else Act.offline))).drainCalls =
      s.drainCalls + l.count true := by
  induction l generalizing s with
  | nil => simp [runActs]
  | cons b t ih =>
    rw [List.map_cons, runActs_cons, ih]
    cases b
    · simp [stepAct, handleOffline, List.count_cons]
    · have : (stepAct s Act.online).drainCalls = s.drainCalls + 1 := by
        unfold stepAct handleOnline
        rw [processSyncQueueStart_drainCalls]
      rw [if_pos rfl, this]
      simp [List.count_cons]
      omega

/-! ## Status closure of reachable machine states -/

theorem statusesOK_filter {q : List SyncItem} {pred : SyncItem → Bool}
    (h : statusesOK q) : statusesOK (q.filter pred) :=
  fun i hi => h i (List.mem_of_mem_filter hi)

theorem statusesOK_save {now : Nat} {q : List SyncItem} (h : statusesOK q) :
    statusesOK (saveSyncQueueFilter now q) := by
  unfold saveSyncQueueFilter
  exact statusesOK_filter h

theorem statusesOK_updateById {q : List SyncItem} {a : Nat} {f : SyncItem → SyncItem}
    (h : statusesOK q) (hf : ∀ x ∈ q, x.id = a → statusOK (f x).status = true) :
    statusesOK (updateById q a f) := by
  intro i hi
  unfold updateById at hi
  obtain ⟨x, hx, hix⟩ := List.mem_map.mp hi
  by_cases hxa : x.id = a
  · rw [if_pos hxa] at hix
    exact hix ▸ hf x hx hxa
  · rw [if_neg hxa] at hix
    exact hix ▸ h x hx

theorem statusOK_syncItemSuccess (now : Nat) (x : SyncItem) :
    statusOK (syncItemSuccess now x).status = true := by
  rw [show (syncItemSuccess now x).status = "completed" from rfl]
  decide

theorem statusOK_drainFail {x : SyncItem} (h : statusOK x.status = true) :
    statusOK (drainFail x).status = true := by
  unfold drainFail
  split
  · rw [show ({ x with retries := x.retries + 1, status := "failed" } : SyncItem).status =
      "failed" from rfl]
    decide
  · rw [show ({ x with retries := x.retries + 1 } : SyncItem).status = x.status from rfl]
    exact h

theorem statusesOK_drainStep1 (o : Nat → Bool) (now a : Nat) (r : DrainResult)
    (h : statusesOK r.queue) : statusesOK (drainStep1 o now a r).queue := by
  unfold drainStep1
  cases ho : o a
  · simp only [ho, Bool.false_eq_true, if_false]
    cases hg : getById r.queue a
    · simpa [hg] using h
    · next j =>
      simp only [hg]
      split
      · exact statusesOK_updateById h
          (fun x _ _ => statusOK_drainFail (h j (getById_mem hg).1))
      · exact statusesOK_updateById h
          (fun x _ _ => statusOK_drainFail (h j (getById_mem hg).1))
  · simp only [ho, if_true]
    exact statusesOK_updateById h (fun x _ _ => statusOK_syncItemSuccess now x)

theorem statusesOK_processSyncQueueStart (s : MState) (h : statusesOK s.syncQueue) :
    statusesOK (processSyncQueueStart s).syncQueue := by
  unfold processSyncQueueStart
  dsimp only
  split
  · exact h
  · split
    · exact statusesOK_save h
    · exact h

theorem statusesOK_stepAct (s : MState) (a : Act) (h : statusesOK s.syncQueue) :
    statusesOK (stepAct s a).syncQueue := by
  cases a with
  | online =>
    show statusesOK (handleOnline s).syncQueue
    unfold handleOnline
    exact statusesOK_processSyncQueueStart _ h
  | offline => exact h
  | enqueue t d e m nid =>
    show statusesOK (addToSyncQueue s t d e m nid).syncQueue
    unfold addToSyncQueue
    dsimp only
    have hadd : statusesOK (saveSyncQueueFilter s.now (s.syncQueue ++
        [{ id := nid, type := t, data := d, endpoint := e, method := m,
           timestamp := s.now, retries := 0, status := "pending" }])) := by
      apply statusesOK_save
      intro i hi
      rcases List.mem_append.mp hi with hi | hi
      · exact h i hi
      · rw [List.mem_singleton.mp hi]
        show statusOK "pending" = true
        decide
    split
    · exact statusesOK_processSyncQueueStart _ hadd
    · exact hadd
  | startDrain =>
    show statusesOK
      (if (s.isOnline && !s.syncQueue.isEmpty) = true then processSyncQueueStart s
       else s).syncQueue
    split
    · exact statusesOK_processSyncQueueStart _ h
    · exact h
  | drainStep k oc =>
    show statusesOK (stepDrain s k oc).syncQueue
    unfold stepDrain
    cases hg : s.drains.get? k with
    | none => exact h
    | some snap =>
      cases snap with
      | nil => exact @statusesOK_save s.now _ h
      | cons a rest =>
        dsimp only
        split
        · exact @statusesOK_save s.now _
            (statusesOK_drainStep1 (fun _ => oc) s.now a ⟨s.syncQueue, s.sends, s.timers⟩ h)
        · exact statusesOK_drainStep1 (fun _ => oc) s.now a ⟨s.syncQueue, s.sends, s.timers⟩ h
  | timerFire j oc =>
    show statusesOK (fireTimer s j oc).syncQueue
    unfold fireTimer
    cases hg : s.timers.get? j with
    | none => exact h
    | some p =>
      obtain ⟨d, a⟩ := p
      dsimp only
      split
      · split
        · exact statusesOK_updateById h (fun x _ _ => statusOK_syncItemSuccess s.now x)
        · exact h
      · exact h

theorem reachable_statusesOK {s : MState} (h : Reachable s) :
    statusesOK s.syncQueue := by
  induction h with
  | init online now => intro i hi; cases hi
  | step s a _ ih => exact statusesOK_stepAct s a ih

theorem length_filter_partition (q : List SyncItem) (h : statusesOK q) :
    q.length = (q.filter (fun i => i.status = "pending")).length +
      (q.filter (fun i => i.status = "completed")).length +
      (q.filter (fun i => i.status = "failed")).length := by
  induction q with
  | nil => rfl
  | cons x xs ih =>
    have hx := h x (List.mem_cons_self x xs)
    have hxs : statusesOK xs := fun i hi => h i (List.mem_cons_of_mem x hi)
    have hor : (x.status = "pending" ∨ x.status = "completed") ∨ x.status = "failed" := by
      simpa [statusOK] using hx
    rw [List.filter_cons, List.filter_cons, List.filter_cons]
    rcases hor with (hst | hst) | hst <;>
      simp [hst, ih hxs] <;> omega

/-- C10: in every reachable machine state each queue entry's status is one
of pending, completed, failed, and the counts returned by `getSyncStats`
(a pure read of the state) satisfy total = pending + completed + failed. -/
theorem sync_stats_partition (s : MState) (h : Reachable s) :
    (∀ i ∈ s.syncQueue, statusOK i.status = true) ∧
    (getSyncStats s).total =
      (getSyncStats s).pending + (getSyncStats s).completed + (getSyncStats s).failed :=
  ⟨reachable_statusesOK h,
   length_filter_partition s.syncQueue (reachable_statusesOK h)⟩

/-- Witness for `sync_stats_partition`: the reachable state obtained by one
enqueue from startup. -/
theorem sync_stats_partition_witness :
    (∀ i ∈ (stepAct (initState false 7)
        (Act.enqueue "sos-alert" "flood" "/api/sos" "POST" 1)).syncQueue,
      statusOK i.status = true) ∧
    (getSyncStats (stepAct (initState false 7)
        (Act.enqueue "sos-alert" "flood" "/api/sos" "POST" 1))).total =
      (getSyncStats (stepAct (initState false 7)
        (Act.enqueue "sos-alert" "flood" "/api/sos" "POST" 1))).pending +
      (getSyncStats (stepAct (initState false 7)
        (Act.enqueue "sos-alert" "flood" "/api/sos" "POST" 1))).completed +
      (getSyncStats (stepAct (initState false 7)
        (Act.enqueue "sos-alert" "flood" "/api/sos" "POST" 1))).failed :=
  sync_stats_partition _
    (Reachable.step (initState false 7) (Act.enqueue "sos-alert" "flood" "/api/sos" "POST" 1)
      (Reachable.init false 7))

/-- C1 (counterexample): in the two-drain schedule both drains snapshot the
same five pending entries before either completes, and `syncItem` issues
its fetch without re-reading the entry's status, so every entry's payload
is delivered twice — not exactly once as claimed. -/
theorem interleaved_drains_double_submit :
    twoDrainsState.sends.count 1 = 2 ∧ twoDrainsState.sends.count 2 = 2 ∧
    twoDrainsState.sends.count 3 = 2 ∧ twoDrainsState.sends.count 4 = 2 ∧
    twoDrainsState.sends.count 5 = 2 ∧ ¬ twoDrainsState.sends.count 1 = 1 := by
  decide

/-- C2 (counterexample): in the three-failure schedule the entry has
suffered three failed delivery attempts (drain, scheduled retry, drain)
yet its status is still pending — not failed as claimed — because the
retry-timer attempt does not touch the retries counter; and a fourth
delivery attempt then occurs. -/
theorem three_failed_attempts_entry_still_pending :
    threeFailsState.sends.count 1 = 3 ∧
    (getById threeFailsState.syncQueue 1).map (fun i => i.status) = some "pending" ∧
    (fireTimer threeFailsState 0 false).sends.count 1 = 4 := by
  decide

/-- C3 (counterexample): in the late-timer schedule the entry is already
completed when its scheduled retry fires, yet the retry issues one more
fetch — a delivery attempt, not a no-op as claimed. -/
theorem late_retry_fires_after_completion :
    (getById lateTimerState.syncQueue 1).map (fun i => i.status) = some "completed" ∧
    lateTimerState.timers = [(5000, 1)] ∧
    (fireTimer lateTimerState 0 false).sends = lateTimerState.sends ++ [1] := by
  decide

/-- C4 (counterexample): two consecutive Online notifications with no
intervening Offline trigger two drain invocations, not one —
`handleOnline` re-triggers the drain unconditionally. -/
theorem repeated_online_notifications_retrigger_drain :
    (runActs (initState false 0) [Act.online, Act.online]).drainCalls = 2 ∧
    ¬ (runActs (initState false 0) [Act.online, Act.online]).drainCalls = 1 := by
  decide
